import Mathlib

/-!
Verification of the snapshot-loading core of `read_snapshot.cpp`
(`load_snapshot`, `alloc_parts`).

Shallow embedding conventions:
* C `double`/`float` values are modelled as `ℚ`: every comparison the code
  performs on them is an exact bit comparison, which exact rational equality
  models faithfully.
* The one transcendental call, `sqrt` from libm on line 39, is modelled as an
  explicit function parameter `sqrtQ : ℚ → ℚ`; facts about it (such as
  `sqrt 1 = 1`, which IEEE-754 guarantees) become explicit hypotheses.
* The GadgetReader container (`GSnap`) is an external collaborator: it is
  modelled from its interface contract (open; header; per-type particle count;
  `GetBlock(tag, dest, count, start, skipmask)` copies the tag's data for the
  given particle-index range into the destination buffer).  Block contents are
  an abstract total stream per (tag, skipmask); `GetBlock` returns the
  requested flat slice of that stream.
* `malloc` success/failure is an oracle (one Boolean per field array).
* Freshly allocated, not-yet-written memory is modelled as zeros.
* Out-parameter writes are modelled by explicit state passing: the loader
  receives the previous values of the caller's locations and returns the final
  values, together with a trace of the `GetBlock` calls it made.
-/

/-- The snapshot header, as read from the HEAD block (fields used by
`load_snapshot`): expansion factor `time`, `redshift`, `BoxSize`,
`HubbleParam`, `Omega0`, `OmegaLambda`, per-type masses `mass[6]`, and the
cooling flag. -/
structure Header where
  time : ℚ
  redshift : ℚ
  BoxSize : ℚ
  HubbleParam : ℚ
  Omega0 : ℚ
  OmegaLambda : ℚ
  mass : Fin 6 → ℚ
  flag_cooling : Bool

/-- The snapshot container handle (GadgetReader `GSnap`), modelled from its
interface: a header, a per-type particle count (`GetNpart`), and for every
(tag, skip-mask) pair the stream of field values the reader would deliver for
the types retained by that mask, indexed by flat element position. -/
structure GSnap where
  header : Header
  npart : Fin 6 → ℤ
  blocks : String → ℤ → ℕ → ℚ

/-- Elements per particle of a block: POS and VEL hold 3 floats per particle,
every other tag holds 1. -/
def tagWidth (tag : String) : ℕ :=
  if tag = "POS " ∨ tag = "VEL " then 3 else 1

/-- `GetBlock(tag, dest, count, start, skip)`: copy the tag's data for
particles `[start, start+count)` of the retained types into `dest`.  The
result is the flat slice of the (tag, skip) stream. -/
def GSnap.GetBlock (snap : GSnap) (tag : String) (count start skip : ℤ) : List ℚ :=
  (List.range (tagWidth tag * count.toNat)).map
    (fun j => snap.blocks tag skip (tagWidth tag * start.toNat + j))

/-- One recorded `GetBlock` call of a load. -/
structure ReadCall where
  tag : String
  count : ℤ
  start : ℤ
  skip : ℤ
deriving DecidableEq

/-- The six scalar out-parameters of `load_snapshot`
(`atime, redshift, Hz, box100, h100, omegab`). -/
structure Outputs where
  atime : ℚ
  redshift : ℚ
  Hz : ℚ
  box100 : ℚ
  h100 : ℚ
  omegab : ℚ
deriving DecidableEq, Inhabited

/-- The particle buffer `pdata`: one list per field array.  `Pos` and `Vel`
hold 3 entries per particle, the others 1. -/
structure pdata where
  Pos : List ℚ
  Vel : List ℚ
  Mass : List ℚ
  U : List ℚ
  NH0 : List ℚ
  Ne : List ℚ
  h : List ℚ
  NHep : List ℚ
deriving DecidableEq, Inhabited

/-- Per-field `malloc` outcomes for one `alloc_parts` call. -/
structure AllocOracle where
  vel : Bool
  pos : Bool
  mass : Bool
  u : Bool
  nh0 : Bool
  ne : Bool
  nhep : Bool
  hsml : Bool
deriving DecidableEq

/-- `alloc_parts(P, np)`: the chain of `malloc`s combined with
short-circuiting `&&`, exactly in source order
(Vel, Pos, Mass, U, NH0, Ne, [NHep under HELIUM], h).
`he` is the HELIUM build flag. -/
def alloc_parts (he : Bool) (o : AllocOracle) : Bool :=
  o.vel && o.pos && o.mass && o.u && o.nh0 && o.ne &&
    (if he then o.nhep else true) && o.hsml

/-- Lines 40–43: `NumPart = min(MaxRead, GetNpart(PARTTYPE) - StartPart)` when
`MaxRead > 0`, else `NumPart = GetNpart(PARTTYPE) - StartPart`. -/
def resolvedCount (pt : Fin 6) (snap : GSnap) (StartPart MaxRead : ℤ) : ℤ :=
  if MaxRead > 0 then min MaxRead (snap.npart pt - StartPart)
  else snap.npart pt - StartPart

/-- Line 39: the Hubble rate written to `*Hz`.  `sqrtQ` models the libm
`sqrt` call. -/
def hubbleRate (sqrtQ : ℚ → ℚ) (hdr : Header) : ℚ :=
  100 * hdr.HubbleParam *
    sqrtQ (1 + hdr.Omega0 * (1 / hdr.time - 1) + hdr.OmegaLambda * (hdr.time ^ 2 - 1)) /
    hdr.time

/-- Lines 35–39: the scalar out-parameter writes performed before the count
check (`*omegab` is not among them and keeps its previous value). -/
def writeScalars (sqrtQ : ℚ → ℚ) (hdr : Header) (out0 : Outputs) : Outputs :=
  { atime := hdr.time
    redshift := hdr.redshift
    Hz := hubbleRate sqrtQ hdr
    box100 := hdr.BoxSize
    h100 := hdr.HubbleParam
    omegab := out0.omegab }

/-- Lines 60–61: the skip mask used for POS and VEL,
`(1<<N_TYPE)-1-(1<<PARTTYPE)`. -/
def posVelSkip (pt : Fin 6) : ℤ := 2 ^ 6 - 1 - 2 ^ (pt : ℕ)

/-- Lines 67–71: starting from the POS/VEL mask, remove every type whose
header mass entry is non-zero (those masses are not stored in the MASS
block). -/
def massSkip (hdr : Header) (pt : Fin 6) : ℤ :=
  (List.finRange 6).foldl
    (fun s i => if hdr.mass i ≠ 0 then s - 2 ^ (i : ℕ) else s)
    (2 ^ 6 - 1 - 2 ^ (pt : ℕ))

/-- Lines 63–73: the mass array after resolution — a uniform fill from the
header when `mass[PARTTYPE]` is non-zero, otherwise the MASS block slice read
with `massSkip`. -/
def massVals (pt : Fin 6) (snap : GSnap) (count start : ℤ) : List ℚ :=
  if snap.header.mass pt ≠ 0 then
    List.replicate count.toNat (snap.header.mass pt)
  else
    snap.GetBlock ("MASS") count start (massSkip snap.header pt)

/-- Line 79: `*omegab = Mass[0]/(Mass[0]+header.mass[1])*Omega0`. -/
def omegaB (hdr : Header) (mass : List ℚ) : ℚ :=
  mass.headI / (mass.headI + hdr.mass 1) * hdr.Omega0

/-- Lines 94–103: combine the three sub-species blocks by neutrality,
`Ne[k] = NHP[k] + NHEP[k] + 2*NHEQ[k]` (the NHEP and NHEQ slices pass through
the smoothing-length buffer as scratch before HSML overwrites it). -/
def combineNe (nhp nhep nheq : List ℚ) : List ℚ :=
  List.zipWith (fun a b => a + 2 * b) (List.zipWith (· + ·) nhp nhep) nheq

/-- The particle buffer contents after the block-read sequence of a non-empty
load (lines 60–116).  `g3` is the GADGET3 build flag (combined NE block
instead of the three sub-species blocks), `he` the HELIUM flag.  Fields the
code never writes for this configuration keep the fresh-allocation value,
modelled as zeros. -/
def loadedBuf (pt : Fin 6) (g3 he : Bool) (snap : GSnap) (count start : ℤ) : pdata :=
  { Pos := snap.GetBlock ("POS ") count start (posVelSkip pt)
    Vel := snap.GetBlock ("VEL ") count start (posVelSkip pt)
    Mass := massVals pt snap count start
    U := if pt = 0 then snap.GetBlock ("U   ") count start 0
         else List.replicate count.toNat 0
    NH0 := if pt = 0 ∧ snap.header.flag_cooling = true then
             snap.GetBlock ("NH  ") count start 0
           else List.replicate count.toNat 0
    Ne := if pt = 0 ∧ snap.header.flag_cooling = true then
            (if g3 then snap.GetBlock ("NE  ") count start 0
             else combineNe (snap.GetBlock ("NHP ") count start 0)
                    (snap.GetBlock ("NHEP") count start 0)
                    (snap.GetBlock ("NHEQ") count start 0))
          else List.replicate count.toNat 0
    h := if pt = 0 then snap.GetBlock ("HSML") count start 0
         else List.replicate count.toNat 0
    NHep := if pt = 0 ∧ snap.header.flag_cooling = true ∧ he = true then
              snap.GetBlock ("NHE ") count start 0
            else List.replicate count.toNat 0 }

/-- The `GetBlock` calls a non-empty load performs, in source order. -/
def loadedReads (pt : Fin 6) (g3 he : Bool) (snap : GSnap) (count start : ℤ) :
    List ReadCall :=
  [⟨"POS ", count, start, posVelSkip pt⟩, ⟨"VEL ", count, start, posVelSkip pt⟩]
  ++ (if snap.header.mass pt ≠ 0 then []
      else [⟨"MASS", count, start, massSkip snap.header pt⟩])
  ++ (if pt = 0 then
        [⟨"U   ", count, start, 0⟩]
        ++ (if snap.header.flag_cooling = true then
              (if g3 then [⟨"NE  ", count, start, 0⟩]
               else [⟨"NHP ", count, start, 0⟩, ⟨"NHEP", count, start, 0⟩,
                     ⟨"NHEQ", count, start, 0⟩])
              ++ (if he then [⟨"NHE ", count, start, 0⟩] else [])
              ++ [⟨"NH  ", count, start, 0⟩]
            else [])
        ++ [⟨"HSML", count, start, 0⟩]
      else [])

/-- Final state of a load: the scalar out-parameters, the caller's particle
buffer, the `GetBlock` trace, and whether `alloc_parts` was invoked. -/
structure FinalState where
  out : Outputs
  P : pdata
  reads : List ReadCall
  allocated : Bool
deriving DecidableEq, Inhabited

/-- Result of one `load_snapshot` call: the returned count with the final
state, or process termination in `exit(1)` (allocation failure, line 57) or
`exit(0)` (mass-uniformity violation, line 77). -/
inductive LoadResult where
  | ok (ret : ℤ) (st : FinalState)
  | allocFailure
  | massFailure
deriving DecidableEq

/-- The returned count, when the call returns at all. -/
def LoadResult.ret? : LoadResult → Option ℤ
  | .ok r _ => some r
  | _ => none

/-- Whether the call returned (rather than terminating the process). -/
def LoadResult.isOk : LoadResult → Bool
  | .ok _ _ => true
  | _ => false

/-- The final state of a completed call (default on the terminated paths). -/
def LoadResult.stOf : LoadResult → FinalState
  | .ok _ st => st
  | _ => default

/-- Whether `alloc_parts` was invoked during the call.  Both terminated paths
lie at or beyond the allocation call site. -/
def LoadResult.allocTried : LoadResult → Bool
  | .ok _ st => st.allocated
  | _ => true

/-- State of a load that returned 0 on line 45: scalars written, buffer and
`*omegab` untouched, no blocks read, no allocation. -/
def zeroLoadState (sqrtQ : ℚ → ℚ) (snap : GSnap) (P0 : pdata) (out0 : Outputs) :
    FinalState :=
  { out := writeScalars sqrtQ snap.header out0
    P := P0
    reads := []
    allocated := false }

/-- State of a load that ran the full block-read sequence and returned on
line 157. -/
def fullLoadState (pt : Fin 6) (g3 he : Bool) (sqrtQ : ℚ → ℚ) (snap : GSnap)
    (count start : ℤ) (out0 : Outputs) : FinalState :=
  { out := { writeScalars sqrtQ snap.header out0 with
               omegab := omegaB snap.header (massVals pt snap count start) }
    P := loadedBuf pt g3 he snap count start
    reads := loadedReads pt g3 he snap count start
    allocated := true }

/-- `load_snapshot(fname, StartPart, MaxRead, P, atime, redshift, Hz, box100,
h100, omegab)`, lines 24–158.  `pt` is the PARTTYPE build constant, `g3` the
GADGET3 flag, `he` the HELIUM flag, `sqrtQ` the libm `sqrt`, `o` the `malloc`
oracle, `P0`/`out0` the previous contents of the caller's out-locations.
The diagnostic `printf` calls have no functional effect and are omitted. -/
def load_snapshot (pt : Fin 6) (g3 he : Bool) (sqrtQ : ℚ → ℚ) (snap : GSnap)
    (StartPart MaxRead : ℤ) (o : AllocOracle) (P0 : pdata) (out0 : Outputs) :
    LoadResult :=
  if resolvedCount pt snap StartPart MaxRead = 0 then
    .ok 0 (zeroLoadState sqrtQ snap P0 out0)
  else if alloc_parts he o = false then
    .allocFailure
  else if (massVals pt snap (resolvedCount pt snap StartPart MaxRead) StartPart).any
            (fun m => decide
              (m ≠ (massVals pt snap (resolvedCount pt snap StartPart MaxRead) StartPart).headI))
          = true then
    .massFailure
  else
    .ok (resolvedCount pt snap StartPart MaxRead)
      (fullLoadState pt g3 he sqrtQ snap (resolvedCount pt snap StartPart MaxRead)
        StartPart out0)

/-! ### Helper lemmas -/

/-- The `massSkip` fold with the mass-is-nonzero tests abstracted to a Boolean
vector, for exhaustive checking. -/
def skipFold (b : Fin 6 → Bool) (pt : Fin 6) : ℤ :=
  (List.finRange 6).foldl
    (fun s i => if b i = true then s - 2 ^ (i : ℕ) else s)
    (2 ^ 6 - 1 - 2 ^ (pt : ℕ))

set_option maxHeartbeats 1000000 in
theorem skipFold_testBit (b : Fin 6 → Bool) (pt : Fin 6) (hb : b pt = false)
    (i : Fin 6) :
    (skipFold b pt).toNat.testBit (i : ℕ) = (decide (i ≠ pt) && !(b i)) := by
  revert b pt i
  decide

theorem massSkip_eq_skipFold (hdr : Header) (pt : Fin 6) :
    massSkip hdr pt = skipFold (fun i => decide (hdr.mass i ≠ 0)) pt := by
  unfold massSkip skipFold
  simp only [decide_eq_true_eq]

/-- Bit `i` of the MASS skip mask is set exactly for the non-target types
whose header mass entry is zero (provided the target's own entry is zero,
which holds on the branch where the mask is used). -/
theorem massSkip_testBit (hdr : Header) (pt : Fin 6) (h0 : hdr.mass pt = 0)
    (i : Fin 6) :
    (massSkip hdr pt).toNat.testBit (i : ℕ)
      = (decide (i ≠ pt) && decide (hdr.mass i = 0)) := by
  rw [massSkip_eq_skipFold]
  rw [skipFold_testBit _ _ (by simp [h0]) i]
  congr 1
  simp

theorem resolvedCount_start_end (pt : Fin 6) (snap : GSnap) (M : ℤ) :
    resolvedCount pt snap (snap.npart pt) M = 0 := by
  unfold resolvedCount
  split_ifs with h
  · rw [sub_self]
    exact min_eq_right h.le
  · exact sub_self _

/-! ### Claim theorems -/

/-- Claim C9 (confirmed): `alloc_parts` succeeds exactly when every field
array it attempts — Vel, Pos, Mass, U, NH0, Ne, the optional NHep under the
HELIUM flag, and h — is acquired; any single failure makes the whole call
report failure. -/
theorem alloc_parts_all_or_nothing (he : Bool) (o : AllocOracle) :
    alloc_parts he o = true ↔
      (o.vel = true ∧ o.pos = true ∧ o.mass = true ∧ o.u = true ∧
       o.nh0 = true ∧ o.ne = true ∧ (he = true → o.nhep = true) ∧
       o.hsml = true) := by
  cases he <;> simp [alloc_parts, Bool.and_eq_true] <;> tauto

/-- Claim C2 (confirmed): the resolved particle count is
`min(MaxRead, npart - StartPart)` for positive `MaxRead` and
`npart - StartPart` otherwise, and whenever the load returns, it returns
exactly the resolved count. -/
theorem load_returns_resolved_count (pt : Fin 6) (g3 he : Bool) (sqrtQ : ℚ → ℚ)
    (snap : GSnap) (S M : ℤ) (o : AllocOracle) (P0 : pdata) (out0 : Outputs) :
    resolvedCount pt snap S M
      = (if M > 0 then min M (snap.npart pt - S) else snap.npart pt - S) ∧
    ∀ r : ℤ, (load_snapshot pt g3 he sqrtQ snap S M o P0 out0).ret? = some r →
      r = resolvedCount pt snap S M := by
  refine ⟨rfl, ?_⟩
  intro r hr
  unfold load_snapshot at hr
  split_ifs at hr with h1 h2 h3
  · simp only [LoadResult.ret?, Option.some.injEq] at hr
    rw [← hr, h1]
  · simp [LoadResult.ret?] at hr
  · simp [LoadResult.ret?] at hr
  · simp only [LoadResult.ret?, Option.some.injEq] at hr
    exact hr.symm

/-- Claim C1 (corrected): when `StartPart` equals the available count for the
target type the resolved count is 0, the load returns 0, and `alloc_parts` is
never invoked.  (The original claim's `startIndex > availableCount` case
fails: the resolved count is then negative, not 0, and the load proceeds to
allocate — see the counterexample.) -/
theorem load_at_end_noop (pt : Fin 6) (g3 he : Bool) (sqrtQ : ℚ → ℚ)
    (snap : GSnap) (S M : ℤ) (o : AllocOracle) (P0 : pdata) (out0 : Outputs)
    (hS : S = snap.npart pt) :
    resolvedCount pt snap S M = 0 ∧
    (load_snapshot pt g3 he sqrtQ snap S M o P0 out0).ret? = some 0 ∧
    (load_snapshot pt g3 he sqrtQ snap S M o P0 out0).allocTried = false := by
  have h0 : resolvedCount pt snap S M = 0 := by
    subst hS; exact resolvedCount_start_end pt snap M
  refine ⟨h0, ?_, ?_⟩ <;>
    · unfold load_snapshot
      simp [h0, LoadResult.ret?, LoadResult.allocTried, zeroLoadState]

/-- Claim C10 (confirmed): a load whose window starts exactly at the available
count returns 0 after writing the five header-derived scalars (expansion
factor, redshift, Hubble rate, box size, h100), while `*omegab`, the particle
buffer and the read trace are untouched. -/
theorem zero_count_frame (pt : Fin 6) (g3 he : Bool) (sqrtQ : ℚ → ℚ)
    (snap : GSnap) (S M : ℤ) (o : AllocOracle) (P0 : pdata) (out0 : Outputs)
    (hS : S = snap.npart pt) :
    (load_snapshot pt g3 he sqrtQ snap S M o P0 out0).ret? = some 0 ∧
    (load_snapshot pt g3 he sqrtQ snap S M o P0 out0).stOf.out.atime
      = snap.header.time ∧
    (load_snapshot pt g3 he sqrtQ snap S M o P0 out0).stOf.out.redshift
      = snap.header.redshift ∧
    (load_snapshot pt g3 he sqrtQ snap S M o P0 out0).stOf.out.Hz
      = hubbleRate sqrtQ snap.header ∧
    (load_snapshot pt g3 he sqrtQ snap S M o P0 out0).stOf.out.box100
      = snap.header.BoxSize ∧
    (load_snapshot pt g3 he sqrtQ snap S M o P0 out0).stOf.out.h100
      = snap.header.HubbleParam ∧
    (load_snapshot pt g3 he sqrtQ snap S M o P0 out0).stOf.out.omegab
      = out0.omegab ∧
    (load_snapshot pt g3 he sqrtQ snap S M o P0 out0).stOf.P = P0 ∧
    (load_snapshot pt g3 he sqrtQ snap S M o P0 out0).stOf.reads = [] := by
  have h0 : resolvedCount pt snap S M = 0 := by
    subst hS; exact resolvedCount_start_end pt snap M
  unfold load_snapshot
  simp [h0, LoadResult.ret?, LoadResult.stOf, zeroLoadState, writeScalars]

/-! ### Concrete instances for witnesses and counterexamples -/

/-- A small concrete header: flat ΛCDM present-day values, uniform unit
masses, cooling off. -/
def cHdr : Header :=
  { time := 1, redshift := 0, BoxSize := 1, HubbleParam := 7/10,
    Omega0 := 3/10, OmegaLambda := 7/10, mass := fun _ => 1,
    flag_cooling := false }

/-- A concrete snapshot with 5 particles of every type and constant block
data. -/
def cSnap : GSnap :=
  { header := cHdr, npart := fun _ => 5, blocks := fun _ _ _ => 1 }

/-- All mallocs succeed. -/
def cOracle : AllocOracle := ⟨true, true, true, true, true, true, true, true⟩

/-- Counterexample to claim C1 as stated: requesting `StartPart = 6` from a
snapshot with 5 particles of the target type (so `startIndex > availableCount`)
does not resolve the count to 0 and does not return 0 — the resolved count is
−1 — and the load does invoke `alloc_parts`. -/
theorem load_past_end_allocates :
    (load_snapshot 1 false false id cSnap 6 0 cOracle default default).ret?
        ≠ some 0 ∧
    (load_snapshot 1 false false id cSnap 6 0 cOracle default default).allocTried
        = true ∧
    resolvedCount 1 cSnap 6 0 = -1 := by
  decide

theorem load_at_end_noop_witness :
    ((5 : ℤ) = cSnap.npart 1) ∧
    (resolvedCount 1 cSnap 5 3 = 0 ∧
     (load_snapshot 1 false false id cSnap 5 3 cOracle default default).ret?
         = some 0 ∧
     (load_snapshot 1 false false id cSnap 5 3 cOracle default default).allocTried
         = false) :=
  ⟨by decide,
   load_at_end_noop 1 false false id cSnap 5 3 cOracle default default (by decide)⟩

theorem load_returns_resolved_count_witness :
    ((load_snapshot 1 false false id cSnap 0 3 cOracle default default).ret?
        = some 3) ∧
    (3 : ℤ) = resolvedCount 1 cSnap 0 3 :=
  ⟨by decide,
   (load_returns_resolved_count 1 false false id cSnap 0 3 cOracle default
      default).2 3 (by decide)⟩

theorem zero_count_frame_witness :
    ((5 : ℤ) = cSnap.npart 1) ∧
    ((load_snapshot 1 false false id cSnap 5 0 cOracle default default).ret?
        = some 0 ∧
     (load_snapshot 1 false false id cSnap 5 0 cOracle default default).stOf.out.atime
        = cSnap.header.time ∧
     (load_snapshot 1 false false id cSnap 5 0 cOracle default default).stOf.out.redshift
        = cSnap.header.redshift ∧
     (load_snapshot 1 false false id cSnap 5 0 cOracle default default).stOf.out.Hz
        = hubbleRate id cSnap.header ∧
     (load_snapshot 1 false false id cSnap 5 0 cOracle default default).stOf.out.box100
        = cSnap.header.BoxSize ∧
     (load_snapshot 1 false false id cSnap 5 0 cOracle default default).stOf.out.h100
        = cSnap.header.HubbleParam ∧
     (load_snapshot 1 false false id cSnap 5 0 cOracle default default).stOf.out.omegab
        = (default : Outputs).omegab ∧
     (load_snapshot 1 false false id cSnap 5 0 cOracle default default).stOf.P
        = default ∧
     (load_snapshot 1 false false id cSnap 5 0 cOracle default default).stOf.reads
        = []) :=
  ⟨by decide,
   zero_count_frame 1 false false id cSnap 5 0 cOracle default default (by decide)⟩

theorem loadedReads_no_mass (pt : Fin 6) (g3 he : Bool) (snap : GSnap)
    (count start : ℤ) (hm : snap.header.mass pt ≠ 0) :
    ∀ c ∈ loadedReads pt g3 he snap count start, c.tag ≠ "MASS" := by
  intro c hc htag
  have hmem : "MASS" ∈ (loadedReads pt g3 he snap count start).map ReadCall.tag :=
    htag ▸ List.mem_map_of_mem ReadCall.tag hc
  revert hmem
  unfold loadedReads
  rw [if_pos hm]
  split_ifs <;> simp

/-- Claim C3 (confirmed): when the header's mass entry for the target type is
non-zero, every resolved particle's mass is filled with exactly that value and
no MASS block is read; otherwise the MASS block is read for the resolved index
range with a skip mask whose bits clear (do not skip over) every type whose
header mass entry is non-zero. -/
theorem mass_resolution_policy (pt : Fin 6) (g3 he : Bool) (sqrtQ : ℚ → ℚ)
    (snap : GSnap) (S M : ℤ) (o : AllocOracle) (P0 : pdata) (out0 : Outputs)
    (hok : (load_snapshot pt g3 he sqrtQ snap S M o P0 out0).isOk = true) :
    (snap.header.mass pt ≠ 0 →
       (∀ i < (resolvedCount pt snap S M).toNat,
          (load_snapshot pt g3 he sqrtQ snap S M o P0 out0).stOf.P.Mass.getD i 0
            = snap.header.mass pt) ∧
       (∀ c ∈ (load_snapshot pt g3 he sqrtQ snap S M o P0 out0).stOf.reads,
          c.tag ≠ "MASS")) ∧
    (snap.header.mass pt = 0 → resolvedCount pt snap S M ≠ 0 →
       ((⟨"MASS", resolvedCount pt snap S M, S, massSkip snap.header pt⟩ : ReadCall)
           ∈ (load_snapshot pt g3 he sqrtQ snap S M o P0 out0).stOf.reads ∧
        ∀ i : Fin 6, snap.header.mass i ≠ 0 →
          (massSkip snap.header pt).toNat.testBit (i : ℕ) = false)) := by
  unfold load_snapshot at hok ⊢
  split_ifs at hok ⊢ with h1 h2 h3
  · refine ⟨fun hm => ⟨fun i hi => absurd hi (by simp [h1]), ?_⟩, fun _ h => absurd h1 h⟩
    simp [LoadResult.stOf, zeroLoadState]
  · simp [LoadResult.isOk] at hok
  · simp [LoadResult.isOk] at hok
  · constructor
    · intro hm
      refine ⟨?_, ?_⟩
      · intro i hi
        simp only [LoadResult.stOf, fullLoadState, loadedBuf, massVals, if_pos hm]
        rw [List.getD_eq_getElem _ _ (by simpa using hi)]
        simp
      · intro c hc
        exact loadedReads_no_mass pt g3 he snap _ S hm c hc
    · intro hm _
      constructor
      · simp only [LoadResult.stOf, fullLoadState, loadedReads]
        rw [if_neg (by simp [hm])]
        split_ifs <;> simp
      · intro i hi
        rw [massSkip_testBit snap.header pt hm i]
        simp [hi]

/-- Claim C4 (confirmed): once the resolved count is positive and allocation
succeeded, the load dies in the mass-uniformity `exit(0)` exactly when some
entry of the resolved mass array differs (exact comparison) from its first
entry; consequently every buffer a completed load returns has all mass entries
equal to the first. -/
theorem mass_uniformity_fatal_iff (pt : Fin 6) (g3 he : Bool) (sqrtQ : ℚ → ℚ)
    (snap : GSnap) (S M : ℤ) (o : AllocOracle) (P0 : pdata) (out0 : Outputs)
    (hpos : 0 < resolvedCount pt snap S M)
    (halloc : alloc_parts he o = true) :
    ((load_snapshot pt g3 he sqrtQ snap S M o P0 out0) = LoadResult.massFailure ↔
       ∃ m ∈ massVals pt snap (resolvedCount pt snap S M) S,
         m ≠ (massVals pt snap (resolvedCount pt snap S M) S).headI) ∧
    (∀ r st, load_snapshot pt g3 he sqrtQ snap S M o P0 out0 = .ok r st →
       ∀ m ∈ st.P.Mass, m = st.P.Mass.headI) := by
  have h1 : ¬ (resolvedCount pt snap S M = 0) := hpos.ne'
  have h2 : ¬ (alloc_parts he o = false) := by simp [halloc]
  constructor
  · unfold load_snapshot
    rw [if_neg h1, if_neg h2]
    by_cases h3 : (massVals pt snap (resolvedCount pt snap S M) S).any
        (fun m => decide
          (m ≠ (massVals pt snap (resolvedCount pt snap S M) S).headI)) = true
    · rw [if_pos h3]
      simp only [List.any_eq_true, decide_eq_true_eq] at h3
      exact iff_of_true rfl h3
    · rw [if_neg h3]
      refine iff_of_false (by simp) ?_
      simp only [List.any_eq_true, decide_eq_true_eq] at h3
      exact h3
  · intro r st hst
    unfold load_snapshot at hst
    rw [if_neg h1, if_neg h2] at hst
    by_cases h3 : (massVals pt snap (resolvedCount pt snap S M) S).any
        (fun m => decide
          (m ≠ (massVals pt snap (resolvedCount pt snap S M) S).headI)) = true
    · rw [if_pos h3] at hst
      exact absurd hst (by simp)
    · rw [if_neg h3] at hst
      have hP : st.P = loadedBuf pt g3 he snap (resolvedCount pt snap S M) S := by
        cases hst; rfl
      rw [Bool.not_eq_true, List.any_eq_false] at h3
      intro m hm
      have hMass : st.P.Mass = massVals pt snap (resolvedCount pt snap S M) S := by
        rw [hP]; rfl
      rw [hMass] at hm ⊢
      have := h3 m hm
      simpa using this

/-- Claim C6 (confirmed): every completed load has written
`*Hz = 100*h100*sqrt(1 + Omega0*(1/a - 1) + OmegaLambda*(a^2 - 1))/a` from the
header's values; at `a = 1, Omega0 = 0.3, OmegaLambda = 0.7, h100 = 0.7` (and
`sqrt 1 = 1`, an identity of the real square root that IEEE-754 preserves)
this value is exactly 70. -/
theorem hubble_rate_formula (pt : Fin 6) (g3 he : Bool) (sqrtQ : ℚ → ℚ)
    (snap : GSnap) (S M : ℤ) (o : AllocOracle) (P0 : pdata) (out0 : Outputs)
    (hok : (load_snapshot pt g3 he sqrtQ snap S M o P0 out0).isOk = true) :
    (load_snapshot pt g3 he sqrtQ snap S M o P0 out0).stOf.out.Hz
      = 100 * snap.header.HubbleParam *
          sqrtQ (1 + snap.header.Omega0 * (1 / snap.header.time - 1)
                   + snap.header.OmegaLambda * (snap.header.time ^ 2 - 1))
          / snap.header.time ∧
    (snap.header.time = 1 → snap.header.Omega0 = 3/10 →
     snap.header.OmegaLambda = 7/10 → snap.header.HubbleParam = 7/10 →
     sqrtQ 1 = 1 →
     (load_snapshot pt g3 he sqrtQ snap S M o P0 out0).stOf.out.Hz = 70) := by
  have hz : (load_snapshot pt g3 he sqrtQ snap S M o P0 out0).stOf.out.Hz
      = hubbleRate sqrtQ snap.header := by
    unfold load_snapshot at hok ⊢
    split_ifs at hok ⊢ with h1 h2 h3
    · simp [LoadResult.stOf, zeroLoadState, writeScalars]
    · simp [LoadResult.isOk] at hok
    · simp [LoadResult.isOk] at hok
    · simp [LoadResult.stOf, fullLoadState, writeScalars]
  refine ⟨by rw [hz]; rfl, ?_⟩
  intro ha ho hl hh hs
  rw [hz]
  unfold hubbleRate
  rw [ha, ho, hl, hh]
  norm_num [hs]

/-- Claim C7 (confirmed): a completed load with positive count writes
`*omegab = Mass[0]/(Mass[0] + header.mass[1])*Omega0` where `Mass[0]` is the
first loaded particle's mass; with `Mass[0] = 0.1`, `mass[1] = 0.9`,
`Omega0 = 0.3` this is `0.03`. -/
theorem omega_baryon_formula (pt : Fin 6) (g3 he : Bool) (sqrtQ : ℚ → ℚ)
    (snap : GSnap) (S M : ℤ) (o : AllocOracle) (P0 : pdata) (out0 : Outputs)
    (r : ℤ)
    (hok : (load_snapshot pt g3 he sqrtQ snap S M o P0 out0).ret? = some r)
    (hr : 0 < r) :
    ((load_snapshot pt g3 he sqrtQ snap S M o P0 out0).stOf.out.omegab
       = (load_snapshot pt g3 he sqrtQ snap S M o P0 out0).stOf.P.Mass.headI
         / ((load_snapshot pt g3 he sqrtQ snap S M o P0 out0).stOf.P.Mass.headI
              + snap.header.mass 1)
         * snap.header.Omega0) ∧
    ((load_snapshot pt g3 he sqrtQ snap S M o P0 out0).stOf.P.Mass.headI = 1/10 →
     snap.header.mass 1 = 9/10 → snap.header.Omega0 = 3/10 →
     (load_snapshot pt g3 he sqrtQ snap S M o P0 out0).stOf.out.omegab = 3/100) := by
  unfold load_snapshot at hok ⊢
  split_ifs at hok ⊢ with h1 h2 h3
  · simp only [LoadResult.ret?, Option.some.injEq] at hok
    omega
  · simp [LoadResult.ret?] at hok
  · simp [LoadResult.ret?] at hok
  · have hform : (LoadResult.ok (resolvedCount pt snap S M)
        (fullLoadState pt g3 he sqrtQ snap (resolvedCount pt snap S M) S out0)).stOf.out.omegab
        = (LoadResult.ok (resolvedCount pt snap S M)
            (fullLoadState pt g3 he sqrtQ snap (resolvedCount pt snap S M) S out0)).stOf.P.Mass.headI
          / ((LoadResult.ok (resolvedCount pt snap S M)
                (fullLoadState pt g3 he sqrtQ snap (resolvedCount pt snap S M) S out0)).stOf.P.Mass.headI
               + snap.header.mass 1)
          * snap.header.Omega0 := by
      simp [LoadResult.stOf, fullLoadState, loadedBuf, omegaB]
    refine ⟨hform, ?_⟩
    intro hm h1m ho
    rw [hform, hm, h1m, ho]
    norm_num

/-- Header for the omega-baryon witness: uniform mass 1/10 except 9/10 for
type 1. -/
def cHdr7 : Header :=
  { cHdr with mass := fun i => if i = 1 then 9/10 else 1/10 }

/-- Snapshot for the omega-baryon witness. -/
def cSnap7 : GSnap :=
  { header := cHdr7, npart := fun _ => 4, blocks := fun _ _ _ => 1 }

theorem mass_resolution_policy_witness :
    ((load_snapshot 1 false false id cSnap 0 5 cOracle default default).isOk
        = true) ∧
    ((cSnap.header.mass 1 ≠ 0 →
        (∀ i < (resolvedCount 1 cSnap 0 5).toNat,
           (load_snapshot 1 false false id cSnap 0 5 cOracle default
              default).stOf.P.Mass.getD i 0 = cSnap.header.mass 1) ∧
        (∀ c ∈ (load_snapshot 1 false false id cSnap 0 5 cOracle default
                  default).stOf.reads, c.tag ≠ "MASS")) ∧
     (cSnap.header.mass 1 = 0 → resolvedCount 1 cSnap 0 5 ≠ 0 →
        ((⟨"MASS", resolvedCount 1 cSnap 0 5, 0, massSkip cSnap.header 1⟩ : ReadCall)
            ∈ (load_snapshot 1 false false id cSnap 0 5 cOracle default
                 default).stOf.reads ∧
         ∀ i : Fin 6, cSnap.header.mass i ≠ 0 →
           (massSkip cSnap.header 1).toNat.testBit (i : ℕ) = false))) :=
  ⟨by decide,
   mass_resolution_policy 1 false false id cSnap 0 5 cOracle default default
     (by decide)⟩

theorem mass_uniformity_fatal_iff_witness :
    ((0 : ℤ) < resolvedCount 1 cSnap 0 5 ∧ alloc_parts false cOracle = true) ∧
    (((load_snapshot 1 false false id cSnap 0 5 cOracle default default)
          = LoadResult.massFailure ↔
        ∃ m ∈ massVals 1 cSnap (resolvedCount 1 cSnap 0 5) 0,
          m ≠ (massVals 1 cSnap (resolvedCount 1 cSnap 0 5) 0).headI) ∧
     (∀ r st, load_snapshot 1 false false id cSnap 0 5 cOracle default default
          = .ok r st → ∀ m ∈ st.P.Mass, m = st.P.Mass.headI)) :=
  ⟨⟨by decide, by decide⟩,
   mass_uniformity_fatal_iff 1 false false id cSnap 0 5 cOracle default default
     (by decide) (by decide)⟩

theorem hubble_rate_formula_witness :
    ((load_snapshot 1 false false id cSnap 0 2 cOracle default default).isOk
        = true) ∧
    (load_snapshot 1 false false id cSnap 0 2 cOracle default default).stOf.out.Hz
        = 70 :=
  ⟨by decide,
   (hubble_rate_formula 1 false false id cSnap 0 2 cOracle default default
      (by decide)).2 (by simp [cSnap, cHdr]) (by simp [cSnap, cHdr])
      (by simp [cSnap, cHdr]) (by simp [cSnap, cHdr]) rfl⟩

/-- The mass-uniformity scan never fires on a uniform (replicated) mass
array. -/
theorem replicate_mass_check (n : ℕ) (x : ℚ) :
    (List.replicate n x).any
      (fun m => decide (m ≠ (List.replicate n x).headI)) = false := by
  rw [List.any_eq_false]
  intro m hm
  have hmx := List.eq_of_mem_replicate hm
  cases n with
  | zero => simp at hm
  | succ k => simp [List.replicate_succ, hmx]

theorem cSnap7_load_eq :
    load_snapshot 2 false false id cSnap7 0 0 cOracle default default
      = .ok 4 (fullLoadState 2 false false id cSnap7 4 0 default) := by
  have hres : resolvedCount 2 cSnap7 0 0 = 4 := by
    simp [resolvedCount, cSnap7]
  have hmv : massVals 2 cSnap7 4 0 = List.replicate 4 (1/10) := by
    norm_num [massVals, cSnap7, cHdr7, Fin.ext_iff]
    decide
  have hany : (List.replicate 4 ((1:ℚ)/10)).any
      (fun m => decide (m ≠ (List.replicate 4 ((1:ℚ)/10)).headI)) = false :=
    replicate_mass_check 4 (1/10)
  unfold load_snapshot
  rw [hres, hmv, hany]
  norm_num [alloc_parts, cOracle]

theorem omega_baryon_formula_witness :
    ((load_snapshot 2 false false id cSnap7 0 0 cOracle default default).ret?
        = some 4 ∧ (0 : ℤ) < 4) ∧
    (load_snapshot 2 false false id cSnap7 0 0 cOracle default default).stOf.out.omegab
        = 3/100 :=
  ⟨⟨by simp [cSnap7_load_eq, LoadResult.ret?], by decide⟩,
   (omega_baryon_formula 2 false false id cSnap7 0 0 cOracle default default 4
      (by simp [cSnap7_load_eq, LoadResult.ret?]) (by decide)).2
      (by rw [cSnap7_load_eq]
          norm_num [LoadResult.stOf, fullLoadState, loadedBuf, massVals,
            cSnap7, cHdr7, Fin.ext_iff, List.headI]
          rfl)
      (by norm_num [cSnap7, cHdr7, Fin.ext_iff]) (by simp [cSnap7, cHdr7, cHdr])⟩

theorem GetBlock_width_one (snap : GSnap) (tag : String) (hw : tagWidth tag = 1)
    (count start skip : ℤ) :
    snap.GetBlock tag count start skip
      = (List.range count.toNat).map
          (fun j => snap.blocks tag skip (start.toNat + j)) := by
  unfold GSnap.GetBlock
  rw [hw]
  simp [one_mul]

theorem combineNe_map_range (f g h : ℕ → ℚ) (n k : ℕ) (hk : k < n) :
    (combineNe ((List.range n).map f) ((List.range n).map g)
        ((List.range n).map h)).getD k 0 = f k + g k + 2 * h k := by
  simp only [combineNe, List.zipWith_map, List.zipWith_same]
  rw [List.getD_eq_getElem _ _ (by simpa using hk)]
  simp

/-- Claim C8 (confirmed): for a gas-type load in the separate-sub-species
format with cooling on, every loaded particle's electron fraction is
`NHP[k] + NHEP[k] + 2*NHEQ[k]` from the three sub-species blocks; with the
values 0.1, 0.05, 0.02 it is 0.19. -/
theorem electron_fraction_neutrality (he : Bool) (sqrtQ : ℚ → ℚ) (snap : GSnap)
    (S M : ℤ) (o : AllocOracle) (P0 : pdata) (out0 : Outputs) (r : ℤ)
    (hc : snap.header.flag_cooling = true)
    (hok : (load_snapshot 0 false he sqrtQ snap S M o P0 out0).ret? = some r) :
    ∀ k < r.toNat,
      ((load_snapshot 0 false he sqrtQ snap S M o P0 out0).stOf.P.Ne.getD k 0
         = snap.blocks ("NHP ") 0 (S.toNat + k)
           + snap.blocks ("NHEP") 0 (S.toNat + k)
           + 2 * snap.blocks ("NHEQ") 0 (S.toNat + k)) ∧
      (snap.blocks ("NHP ") 0 (S.toNat + k) = 1/10 →
       snap.blocks ("NHEP") 0 (S.toNat + k) = 1/20 →
       snap.blocks ("NHEQ") 0 (S.toNat + k) = 1/50 →
       (load_snapshot 0 false he sqrtQ snap S M o P0 out0).stOf.P.Ne.getD k 0
         = 19/100) := by
  intro k hk
  unfold load_snapshot at hok ⊢
  split_ifs at hok ⊢ with h1 h2 h3
  · simp only [LoadResult.ret?, Option.some.injEq] at hok
    rw [← hok] at hk
    simp at hk
  · simp [LoadResult.ret?] at hok
  · simp [LoadResult.ret?] at hok
  · simp only [LoadResult.ret?, Option.some.injEq] at hok
    have hkR : k < (resolvedCount 0 snap S M).toNat := by rw [hok]; exact hk
    have hNe : (LoadResult.ok (resolvedCount 0 snap S M)
        (fullLoadState 0 false he sqrtQ snap (resolvedCount 0 snap S M) S
          out0)).stOf.P.Ne.getD k 0
        = snap.blocks ("NHP ") 0 (S.toNat + k)
          + snap.blocks ("NHEP") 0 (S.toNat + k)
          + 2 * snap.blocks ("NHEQ") 0 (S.toNat + k) := by
      simp only [LoadResult.stOf, fullLoadState, loadedBuf]
      rw [if_pos (by simp [hc]), if_neg Bool.false_ne_true]
      rw [GetBlock_width_one snap ("NHP ") (by decide),
          GetBlock_width_one snap ("NHEP") (by decide),
          GetBlock_width_one snap ("NHEQ") (by decide)]
      exact combineNe_map_range _ _ _ _ k hkR
    exact ⟨hNe, fun p1 p2 p3 => by rw [hNe, p1, p2, p3]; norm_num⟩

/-- Header for the electron-fraction witness: cooling on. -/
def cHdr8 : Header := { cHdr with flag_cooling := true }

/-- Snapshot for the electron-fraction witness: per-tag constant sub-species
values 0.1, 0.05, 0.02. -/
def cSnap8 : GSnap :=
  { header := cHdr8, npart := fun _ => 3,
    blocks := fun tag _ _ =>
      if tag = "NHP " then 1/10
      else if tag = "NHEP" then 1/20
      else if tag = "NHEQ" then 1/50 else 1 }

theorem electron_fraction_neutrality_witness :
    (cSnap8.header.flag_cooling = true ∧
     (load_snapshot 0 false false id cSnap8 0 0 cOracle default default).ret?
       = some 3 ∧
     0 < (3 : ℤ).toNat) ∧
    (load_snapshot 0 false false id cSnap8 0 0 cOracle default default).stOf.P.Ne.getD 0 0
      = 19/100 :=
  ⟨⟨by decide, by decide, by decide⟩,
   ((electron_fraction_neutrality false id cSnap8 0 0 cOracle default default 3
       (by decide) (by decide)) 0 (by decide)).2
     (by simp [cSnap8]) (by simp [cSnap8]) (by simp [cSnap8])⟩

theorem GetBlock_length (snap : GSnap) (tag : String) (count start skip : ℤ) :
    (snap.GetBlock tag count start skip).length = tagWidth tag * count.toNat := by
  simp [GSnap.GetBlock]

/-- Adjacent `GetBlock` windows concatenate: reading `[s, s+c₁)` and then
`[s+c₁, s+c₁+c₂)` yields the same data as reading `[s, s+c₁+c₂)` at once. -/
theorem GetBlock_append (snap : GSnap) (tag : String) (skip s c₁ c₂ : ℤ)
    (hs : 0 ≤ s) (h1 : 0 ≤ c₁) (h2 : 0 ≤ c₂) :
    snap.GetBlock tag c₁ s skip ++ snap.GetBlock tag c₂ (s + c₁) skip
      = snap.GetBlock tag (c₁ + c₂) s skip := by
  unfold GSnap.GetBlock
  rw [Int.toNat_add h1 h2, Int.toNat_add hs h1, Nat.mul_add, Nat.mul_add,
      List.range_add, List.map_append, List.map_map]
  congr 1
  apply List.map_congr_left
  intro j hj
  simp only [Function.comp]
  congr 1
  omega

theorem massVals_append (pt : Fin 6) (snap : GSnap) (s c₁ c₂ : ℤ)
    (hs : 0 ≤ s) (h1 : 0 ≤ c₁) (h2 : 0 ≤ c₂) :
    massVals pt snap c₁ s ++ massVals pt snap c₂ (s + c₁)
      = massVals pt snap (c₁ + c₂) s := by
  unfold massVals
  split_ifs with hm
  · rw [← List.replicate_add, Int.toNat_add h1 h2]
  · exact GetBlock_append snap _ _ s c₁ c₂ hs h1 h2

theorem combineNe_append (a₁ b₁ c₁ a₂ b₂ c₂ : List ℚ)
    (hab : a₁.length = b₁.length) (hac : a₁.length = c₁.length) :
    combineNe (a₁ ++ a₂) (b₁ ++ b₂) (c₁ ++ c₂)
      = combineNe a₁ b₁ c₁ ++ combineNe a₂ b₂ c₂ := by
  unfold combineNe
  rw [List.zipWith_append _ _ _ _ _ hab,
      List.zipWith_append _ _ _ _ _
        (by rw [List.length_zipWith, ← hab, min_self, hac])]

/-- When a load returns a non-zero count, its final state is the full
block-read state for that count. -/
theorem load_ok_state (pt : Fin 6) (g3 he : Bool) (sqrtQ : ℚ → ℚ)
    (snap : GSnap) (S M : ℤ) (o : AllocOracle) (P0 : pdata) (out0 : Outputs)
    (r : ℤ) (hr0 : resolvedCount pt snap S M = r) (hne : ¬ (r = 0))
    (hok : (load_snapshot pt g3 he sqrtQ snap S M o P0 out0).ret? = some r) :
    (load_snapshot pt g3 he sqrtQ snap S M o P0 out0).stOf
      = fullLoadState pt g3 he sqrtQ snap r S out0 := by
  unfold load_snapshot at hok ⊢
  rw [hr0] at hok ⊢
  rw [if_neg hne] at hok ⊢
  by_cases ha : alloc_parts he o = false
  · rw [if_pos ha] at hok
    simp [LoadResult.ret?] at hok
  · rw [if_neg ha] at hok ⊢
    by_cases hm : (massVals pt snap r S).any
        (fun m => decide (m ≠ (massVals pt snap r S).headI)) = true
    · rw [if_pos hm] at hok
      simp [LoadResult.ret?] at hok
    · rw [if_neg hm]
      simp [LoadResult.stOf]

/-- Claim C5 (confirmed): on a snapshot with 100 particles of the target type,
loading `[0,50)` and then `[50,100)` in two independent calls yields, field by
field, the same particle values as loading `[0,100)` in one call. -/
theorem pagination_concat (pt : Fin 6) (g3 he : Bool) (sqrtQ : ℚ → ℚ)
    (snap : GSnap) (o : AllocOracle) (P0 : pdata) (out0 : Outputs)
    (hn : snap.npart pt = 100)
    (h1 : (load_snapshot pt g3 he sqrtQ snap 0 50 o P0 out0).ret? = some 50)
    (h2 : (load_snapshot pt g3 he sqrtQ snap 50 50 o P0 out0).ret? = some 50)
    (h3 : (load_snapshot pt g3 he sqrtQ snap 0 100 o P0 out0).ret? = some 100) :
    (load_snapshot pt g3 he sqrtQ snap 0 50 o P0 out0).stOf.P.Pos
        ++ (load_snapshot pt g3 he sqrtQ snap 50 50 o P0 out0).stOf.P.Pos
      = (load_snapshot pt g3 he sqrtQ snap 0 100 o P0 out0).stOf.P.Pos ∧
    (load_snapshot pt g3 he sqrtQ snap 0 50 o P0 out0).stOf.P.Vel
        ++ (load_snapshot pt g3 he sqrtQ snap 50 50 o P0 out0).stOf.P.Vel
      = (load_snapshot pt g3 he sqrtQ snap 0 100 o P0 out0).stOf.P.Vel ∧
    (load_snapshot pt g3 he sqrtQ snap 0 50 o P0 out0).stOf.P.Mass
        ++ (load_snapshot pt g3 he sqrtQ snap 50 50 o P0 out0).stOf.P.Mass
      = (load_snapshot pt g3 he sqrtQ snap 0 100 o P0 out0).stOf.P.Mass ∧
    (load_snapshot pt g3 he sqrtQ snap 0 50 o P0 out0).stOf.P.U
        ++ (load_snapshot pt g3 he sqrtQ snap 50 50 o P0 out0).stOf.P.U
      = (load_snapshot pt g3 he sqrtQ snap 0 100 o P0 out0).stOf.P.U ∧
    (load_snapshot pt g3 he sqrtQ snap 0 50 o P0 out0).stOf.P.NH0
        ++ (load_snapshot pt g3 he sqrtQ snap 50 50 o P0 out0).stOf.P.NH0
      = (load_snapshot pt g3 he sqrtQ snap 0 100 o P0 out0).stOf.P.NH0 ∧
    (load_snapshot pt g3 he sqrtQ snap 0 50 o P0 out0).stOf.P.Ne
        ++ (load_snapshot pt g3 he sqrtQ snap 50 50 o P0 out0).stOf.P.Ne
      = (load_snapshot pt g3 he sqrtQ snap 0 100 o P0 out0).stOf.P.Ne ∧
    (load_snapshot pt g3 he sqrtQ snap 0 50 o P0 out0).stOf.P.h
        ++ (load_snapshot pt g3 he sqrtQ snap 50 50 o P0 out0).stOf.P.h
      = (load_snapshot pt g3 he sqrtQ snap 0 100 o P0 out0).stOf.P.h ∧
    (load_snapshot pt g3 he sqrtQ snap 0 50 o P0 out0).stOf.P.NHep
        ++ (load_snapshot pt g3 he sqrtQ snap 50 50 o P0 out0).stOf.P.NHep
      = (load_snapshot pt g3 he sqrtQ snap 0 100 o P0 out0).stOf.P.NHep := by
  have r1 : resolvedCount pt snap 0 50 = 50 := by norm_num [resolvedCount, hn]
  have r2 : resolvedCount pt snap 50 50 = 50 := by norm_num [resolvedCount, hn]
  have r3 : resolvedCount pt snap 0 100 = 100 := by norm_num [resolvedCount, hn]
  have e1 := load_ok_state pt g3 he sqrtQ snap 0 50 o P0 out0 50 r1
    (by norm_num) h1
  have e2 := load_ok_state pt g3 he sqrtQ snap 50 50 o P0 out0 50 r2
    (by norm_num) h2
  have e3 := load_ok_state pt g3 he sqrtQ snap 0 100 o P0 out0 100 r3
    (by norm_num) h3
  have hPOS := GetBlock_append snap ("POS ") (posVelSkip pt) 0 50 50
    (by norm_num) (by norm_num) (by norm_num)
  have hVEL := GetBlock_append snap ("VEL ") (posVelSkip pt) 0 50 50
    (by norm_num) (by norm_num) (by norm_num)
  have hU := GetBlock_append snap ("U   ") 0 0 50 50
    (by norm_num) (by norm_num) (by norm_num)
  have hNH := GetBlock_append snap ("NH  ") 0 0 50 50
    (by norm_num) (by norm_num) (by norm_num)
  have hNE := GetBlock_append snap ("NE  ") 0 0 50 50
    (by norm_num) (by norm_num) (by norm_num)
  have hHSML := GetBlock_append snap ("HSML") 0 0 50 50
    (by norm_num) (by norm_num) (by norm_num)
  have hNHE := GetBlock_append snap ("NHE ") 0 0 50 50
    (by norm_num) (by norm_num) (by norm_num)
  have hNHP := GetBlock_append snap ("NHP ") 0 0 50 50
    (by norm_num) (by norm_num) (by norm_num)
  have hNHEP := GetBlock_append snap ("NHEP") 0 0 50 50
    (by norm_num) (by norm_num) (by norm_num)
  have hNHEQ := GetBlock_append snap ("NHEQ") 0 0 50 50
    (by norm_num) (by norm_num) (by norm_num)
  have hM := massVals_append pt snap 0 50 50
    (by norm_num) (by norm_num) (by norm_num)
  norm_num at hPOS hVEL hU hNH hNE hHSML hNHE hNHP hNHEP hNHEQ hM
  have hrep : List.replicate (Int.toNat 50) (0 : ℚ)
        ++ List.replicate (Int.toNat 50) (0 : ℚ)
      = List.replicate (Int.toNat 100) (0 : ℚ) := by
    rw [← List.replicate_add]
    congr 1
  have hab : (snap.GetBlock ("NHP ") 50 0 0).length
      = (snap.GetBlock ("NHEP") 50 0 0).length := by
    rw [GetBlock_length, GetBlock_length]
    decide
  have hac : (snap.GetBlock ("NHP ") 50 0 0).length
      = (snap.GetBlock ("NHEQ") 50 0 0).length := by
    rw [GetBlock_length, GetBlock_length]
    decide
  rw [e1, e2, e3]
  simp only [fullLoadState, loadedBuf]
  refine ⟨hPOS, hVEL, hM, ?_, ?_, ?_, ?_, ?_⟩
  · split_ifs
    · exact hU
    · exact hrep
  · split_ifs
    · exact hNH
    · exact hrep
  · split_ifs
    · exact hNE
    · rw [← hNHP, ← hNHEP, ← hNHEQ]
      exact (combineNe_append _ _ _ _ _ _ hab hac).symm
    · exact hrep
  · split_ifs
    · exact hHSML
    · exact hrep
  · split_ifs
    · exact hNHE
    · exact hrep

/-- Snapshot for the pagination witness: 100 particles of every type, constant
block data, uniform masses. -/
def cSnap100 : GSnap :=
  { header := cHdr, npart := fun _ => 100, blocks := fun _ _ _ => 1 }

theorem pagination_concat_witness :
    (cSnap100.npart 1 = 100 ∧
     (load_snapshot 1 false false id cSnap100 0 50 cOracle default default).ret?
       = some 50 ∧
     (load_snapshot 1 false false id cSnap100 50 50 cOracle default default).ret?
       = some 50 ∧
     (load_snapshot 1 false false id cSnap100 0 100 cOracle default default).ret?
       = some 100) ∧
    ((load_snapshot 1 false false id cSnap100 0 50 cOracle default default).stOf.P.Pos
        ++ (load_snapshot 1 false false id cSnap100 50 50 cOracle default default).stOf.P.Pos
      = (load_snapshot 1 false false id cSnap100 0 100 cOracle default default).stOf.P.Pos ∧
     (load_snapshot 1 false false id cSnap100 0 50 cOracle default default).stOf.P.Vel
        ++ (load_snapshot 1 false false id cSnap100 50 50 cOracle default default).stOf.P.Vel
      = (load_snapshot 1 false false id cSnap100 0 100 cOracle default default).stOf.P.Vel ∧
     (load_snapshot 1 false false id cSnap100 0 50 cOracle default default).stOf.P.Mass
        ++ (load_snapshot 1 false false id cSnap100 50 50 cOracle default default).stOf.P.Mass
      = (load_snapshot 1 false false id cSnap100 0 100 cOracle default default).stOf.P.Mass ∧
     (load_snapshot 1 false false id cSnap100 0 50 cOracle default default).stOf.P.U
        ++ (load_snapshot 1 false false id cSnap100 50 50 cOracle default default).stOf.P.U
      = (load_snapshot 1 false false id cSnap100 0 100 cOracle default default).stOf.P.U ∧
     (load_snapshot 1 false false id cSnap100 0 50 cOracle default default).stOf.P.NH0
        ++ (load_snapshot 1 false false id cSnap100 50 50 cOracle default default).stOf.P.NH0
      = (load_snapshot 1 false false id cSnap100 0 100 cOracle default default).stOf.P.NH0 ∧
     (load_snapshot 1 false false id cSnap100 0 50 cOracle default default).stOf.P.Ne
        ++ (load_snapshot 1 false false id cSnap100 50 50 cOracle default default).stOf.P.Ne
      = (load_snapshot 1 false false id cSnap100 0 100 cOracle default default).stOf.P.Ne ∧
     (load_snapshot 1 false false id cSnap100 0 50 cOracle default default).stOf.P.h
        ++ (load_snapshot 1 false false id cSnap100 50 50 cOracle default default).stOf.P.h
      = (load_snapshot 1 false false id cSnap100 0 100 cOracle default default).stOf.P.h ∧
     (load_snapshot 1 false false id cSnap100 0 50 cOracle default default).stOf.P.NHep
        ++ (load_snapshot 1 false false id cSnap100 50 50 cOracle default default).stOf.P.NHep
      = (load_snapshot 1 false false id cSnap100 0 100 cOracle default default).stOf.P.NHep) :=
  ⟨⟨by decide, by decide, by decide, by decide⟩,
   pagination_concat 1 false false id cSnap100 cOracle default default
     (by decide) (by decide) (by decide) (by decide)⟩
